import Mathlib

/-!
Shallow embedding of the child-process supervision core of
`content/browser/browser_child_process_host.cc` (class `BrowserChildProcessHost`).

Modelling conventions:
* `HostState` carries the mutable per-host fields: `data_.id`, `data_.type`,
  `data_.name`, `data_.handle` (a `base::ProcessHandle`, with `0` standing for
  `base::kNullProcessHandle`) and `disconnect_was_alive_`.
* Observable side effects (UI-thread notifications posted via `Notify`,
  `UMA_HISTOGRAM_ENUMERATION` counter increments, delegate callbacks, the
  scheduling of the bounded exit-code re-check, and the channel force-shutdown
  request) are recorded as an ordered `List Effect`.
* `delete this` is modelled by returning `none` for the successor state; the
  destructor's registry removal (`g_child_process_list.Get().remove(this)`) is
  modelled by `listRemove` on the registry list of host ids.
* `GetTerminationStatus` queries the OS / launch helper, so its result (and the
  exit code it reports) is an input supplied by the environment at each event.
-/

/-- `base::TerminationStatus` as used by the switch in `OnChildDisconnected`. -/
inductive TerminationStatus
  | normalTermination
  | abnormalTermination
  | processWasKilled
  | processCrashed
  | stillRunning
deriving DecidableEq, Repr

/-- The process-wide notifications posted by this file. -/
inductive Notification
  | childProcessHostConnected
  | childProcessCrashed
  | childProcessHostDisconnected
deriving DecidableEq, Repr

/-- The `ChildProcess.*` UMA histogram counters incremented by this file. -/
inductive Metric
  | Crashed
  | CrashedWasAlive
  | Killed
  | KilledWasAlive
  | DisconnectedAlive
  | Disconnected
deriving DecidableEq, Repr

/-- One observable side effect of a `BrowserChildProcessHost` operation. -/
inductive Effect
  | notify (n : Notification)
  | histogram (m : Metric) (processType : Nat)
  | delegateOnProcessCrashed (exitCode : Int)
  | delegateOnProcessLaunched
  | delegateOnChannelConnected (peerPid : Int)
  | delegateOnChannelError
  | scheduleRecheck
  | channelForceShutdown
deriving DecidableEq, Repr

/-- The mutable state of one `BrowserChildProcessHost`. -/
structure HostState where
  id : Nat
  type : Nat
  name : Nat
  handle : Nat
  disconnect_was_alive : Bool
deriving DecidableEq, Repr

/-- State established by the constructor: `data_(type)` leaves the handle at
`base::kNullProcessHandle` (0), and `disconnect_was_alive_(false)`. -/
def initialState (id ty : Nat) : HostState :=
  { id := id, type := ty, name := 0, handle := 0, disconnect_was_alive := false }

/-- `std::list::remove`: removes every element equal to the argument. -/
def listRemove (l : List Nat) (x : Nat) : List Nat :=
  l.filter (fun a => a ≠ x)

/-- The constructor's registration: `g_child_process_list.Get().push_back(this)`. -/
def construct (reg : List Nat) (id ty : Nat) : List Nat × HostState :=
  (reg ++ [id], initialState id ty)

/-- The registry enumeration surface (`GetIterator` exposes the live list). -/
def Enumerate (reg : List Nat) : List Nat :=
  reg

/-- Effects of the unconditional tail of `OnChildDisconnected`: the
`ChildProcess.Disconnected` histogram, then the
`NOTIFICATION_CHILD_PROCESS_HOST_DISCONNECTED` notification. -/
def terminalEffects (ty : Nat) : List Effect :=
  [.histogram .Disconnected ty, .notify .childProcessHostDisconnected]

/-- `BrowserChildProcessHost::OnChildDisconnected`, with the result of its
`GetTerminationStatus(&exit_code)` call supplied as `status` / `exitCode`.
Returns the emitted effects and the successor state (`none` = `delete this`). -/
def OnChildDisconnected (st : HostState) (status : TerminationStatus) (exitCode : Int) :
    List Effect × Option HostState :=
  match status with
  | .processCrashed | .abnormalTermination =>
      (.delegateOnProcessCrashed exitCode ::
         .notify .childProcessCrashed ::
         .histogram .Crashed st.type ::
         ((if st.disconnect_was_alive then [Effect.histogram .CrashedWasAlive st.type] else []) ++
           terminalEffects st.type),
       none)
  | .processWasKilled =>
      (.histogram .Killed st.type ::
         ((if st.disconnect_was_alive then [Effect.histogram .KilledWasAlive st.type] else []) ++
           terminalEffects st.type),
       none)
  | .stillRunning =>
      if st.disconnect_was_alive then
        (.histogram .DisconnectedAlive st.type :: terminalEffects st.type, none)
      else
        ([.scheduleRecheck], some { st with disconnect_was_alive := true })
  | .normalTermination =>
      (terminalEffects st.type, none)

/-- The Windows `STILL_ACTIVE` pseudo exit code (0x103). -/
def STILL_ACTIVE : Nat := 259

/-- `BrowserChildProcessHost::OnWaitableEventSignaled` (Windows path):
`GetExitCodeProcess` yields `exitCode`; on `STILL_ACTIVE` the object is deleted
without calling `OnChildDisconnected`, otherwise `OnChildDisconnected` runs with
the termination status the environment then reports. -/
def OnWaitableEventSignaled (st : HostState) (exitCode : Nat)
    (status : TerminationStatus) (statusExitCode : Int) : List Effect × Option HostState :=
  if exitCode = STILL_ACTIVE then ([], none)
  else OnChildDisconnected st status statusExitCode

/-- `BrowserChildProcessHost::SetName`. -/
def SetName (st : HostState) (n : Nat) : HostState :=
  { st with name := n }

/-- `BrowserChildProcessHost::SetHandle`: `data_.handle = handle;` unconditionally. -/
def SetHandle (st : HostState) (h : Nat) : HostState :=
  { st with handle := h }

/-- `BrowserChildProcessHost::OnChannelConnected`. -/
def OnChannelConnected (st : HostState) (peerPid : Int) : List Effect × Option HostState :=
  ([.notify .childProcessHostConnected, .delegateOnChannelConnected peerPid], some st)

/-- `BrowserChildProcessHost::OnChannelError`. -/
def OnChannelError (st : HostState) : List Effect × Option HostState :=
  ([.delegateOnChannelError], some st)

/-- `BrowserChildProcessHost::OnProcessLaunched`: `child_process_->GetHandle()`
is supplied as `launcherHandle` (`0` = invalid / absent handle). -/
def OnProcessLaunched (st : HostState) (launcherHandle : Nat) :
    List Effect × Option HostState :=
  if launcherHandle = 0 then ([], none)
  else ([.delegateOnProcessLaunched], some { st with handle := launcherHandle })

/-- `BrowserChildProcessHost::ForceShutdown`: removes this host from the
registry, then tells the channel to shut down. The host object survives. -/
def ForceShutdown (reg : List Nat) (st : HostState) : List Nat × List Effect × HostState :=
  (listRemove reg st.id, [.channelForceShutdown], st)

/-- `BrowserChildProcessHost::ShutdownStarted`: removes this host from the
registry without terminating anything. The host object survives. -/
def ShutdownStarted (reg : List Nat) (st : HostState) : List Nat × List Effect × HostState :=
  (listRemove reg st.id, [], st)

/-- The inner loop of `TerminateAll`: `STLDeleteElements(&copy)` deletes each
element of the snapshot; each destructor removes itself from the live list.
Returns the final live list and the ids destroyed, in order. -/
def terminateAllLoop : List Nat → List Nat → List Nat × List Nat
  | live, [] => (live, [])
  | live, x :: rest =>
      let r := terminateAllLoop (listRemove live x) rest
      (r.1, x :: r.2)

/-- `BrowserChildProcessHost::TerminateAll`: copies the live list, then deletes
every element of the copy. -/
def TerminateAll (reg : List Nat) : List Nat × List Nat :=
  terminateAllLoop reg reg

/-- An environment event delivered to one host on the IO thread. `destroy`
models direct deletion by the owner (e.g. from `TerminateAll`). -/
inductive Event
  | childDisconnected (status : TerminationStatus) (exitCode : Int)
  | waitableEventSignaled (exitCode : Nat) (status : TerminationStatus) (statusExitCode : Int)
  | channelConnected (peerPid : Int)
  | channelError
  | setName (n : Nat)
  | setHandle (h : Nat)
  | processLaunched (launcherHandle : Nat)
  | destroy
deriving DecidableEq, Repr

/-- Dispatch one event to the host. -/
def step (st : HostState) : Event → List Effect × Option HostState
  | .childDisconnected status ec => OnChildDisconnected st status ec
  | .waitableEventSignaled ec status sec => OnWaitableEventSignaled st ec status sec
  | .channelConnected peer => OnChannelConnected st peer
  | .channelError => OnChannelError st
  | .setName n => ([], some (SetName st n))
  | .setHandle h => ([], some (SetHandle st h))
  | .processLaunched h => OnProcessLaunched st h
  | .destroy => ([], none)

/-- `step` together with the destructor's registry removal when the host
deletes itself. -/
def stepReg (reg : List Nat) (st : HostState) (e : Event) :
    List Nat × List Effect × Option HostState :=
  match step st e with
  | (effs, none) => (listRemove reg st.id, effs, none)
  | (effs, some st2) => (reg, effs, some st2)

/-- A lifetime run: events are delivered in order until the host deletes
itself, after which nothing more can happen to it. -/
def lifeRun (st : HostState) : List Event → List Effect × Option HostState
  | [] => ([], some st)
  | e :: es =>
      match step st e with
      | (effs, none) => (effs, none)
      | (effs, some st2) =>
          let r := lifeRun st2 es
          (effs ++ r.1, r.2)

/-- The notifications contained in an effect list, in order. -/
def notifications (effs : List Effect) : List Notification :=
  effs.filterMap (fun e =>
    match e with
    | .notify n => some n
    | _ => none)

/-- How many `CHILD_PROCESS_HOST_DISCONNECTED` notifications an effect list holds. -/
def discCount (effs : List Effect) : Nat :=
  ((notifications effs).filter
    (fun n => decide (n = Notification.childProcessHostDisconnected))).length

/-- How many bounded re-checks an effect list schedules. -/
def schedCount (effs : List Effect) : Nat :=
  (effs.filter (fun e => decide (e = Effect.scheduleRecheck))).length

/-- The exit codes passed to the delegate's crash callback, in order. -/
def crashCallbacks (effs : List Effect) : List Int :=
  effs.filterMap (fun e =>
    match e with
    | .delegateOnProcessCrashed c => some c
    | _ => none)

/-- Number of increments of histogram `m` keyed by process kind `ty`. -/
def metricCount (effs : List Effect) (m : Metric) (ty : Nat) : Nat :=
  (effs.filter (fun e => decide (e = Effect.histogram m ty))).length

/-- Number of increments of histogram `m` over all process kinds. -/
def metricTotal (effs : List Effect) (m : Metric) : Nat :=
  (effs.filter (fun e =>
    match e with
    | .histogram m2 _ => decide (m2 = m)
    | _ => false)).length

/-- Does this event deliver a `TERMINATION_STATUS_STILL_RUNNING` observation to
`OnChildDisconnected`? -/
def observesStillRunning : Event → Bool
  | .childDisconnected .stillRunning _ => true
  | .waitableEventSignaled ec .stillRunning _ => decide (ec ≠ STILL_ACTIVE)
  | _ => false

/-- Claim C3: on a crashed (or abnormal-termination) status, `OnChildDisconnected`
invokes the delegate crash callback with the exit code, emits exactly one crashed
notification followed by exactly one terminal disconnected notification in that
order, increments the `Crashed` counter keyed by process kind, increments
`CrashedWasAlive` exactly when `disconnect_was_alive` was already set at entry,
and then deletes itself. -/
theorem C3_crashed_branch (st : HostState) (ec : Int) (status : TerminationStatus)
    (h : status = .processCrashed ∨ status = .abnormalTermination) :
    crashCallbacks (OnChildDisconnected st status ec).1 = [ec] ∧
    notifications (OnChildDisconnected st status ec).1 =
      [.childProcessCrashed, .childProcessHostDisconnected] ∧
    metricCount (OnChildDisconnected st status ec).1 .Crashed st.type = 1 ∧
    metricCount (OnChildDisconnected st status ec).1 .CrashedWasAlive st.type =
      (if st.disconnect_was_alive then 1 else 0) ∧
    (OnChildDisconnected st status ec).2 = none := by
  rcases h with h | h <;> subst h <;>
    cases hfl : st.disconnect_was_alive <;>
      simp [OnChildDisconnected, terminalEffects, crashCallbacks, notifications,
        metricCount, hfl]

/-- Claim C3 witness: the crashed branch evaluated at a concrete host. -/
theorem C3_crashed_branch_witness :
    crashCallbacks (OnChildDisconnected (initialState 1 4) .processCrashed 11).1 = [11] ∧
    notifications (OnChildDisconnected (initialState 1 4) .processCrashed 11).1 =
      [.childProcessCrashed, .childProcessHostDisconnected] ∧
    metricCount (OnChildDisconnected (initialState 1 4) .processCrashed 11).1 .Crashed
      (initialState 1 4).type = 1 ∧
    metricCount (OnChildDisconnected (initialState 1 4) .processCrashed 11).1 .CrashedWasAlive
      (initialState 1 4).type =
      (if (initialState 1 4).disconnect_was_alive then 1 else 0) ∧
    (OnChildDisconnected (initialState 1 4) .processCrashed 11).2 = none :=
  C3_crashed_branch (initialState 1 4) 11 .processCrashed (Or.inl rfl)

/-- Claim C4: on a killed status, `OnChildDisconnected` increments the `Killed`
counter keyed by process kind (and `KilledWasAlive` exactly when
`disconnect_was_alive` was already set), never invokes the delegate crash
callback, emits the terminal disconnected notification and deletes itself. -/
theorem C4_killed_branch (st : HostState) (ec : Int) :
    metricCount (OnChildDisconnected st .processWasKilled ec).1 .Killed st.type = 1 ∧
    metricCount (OnChildDisconnected st .processWasKilled ec).1 .KilledWasAlive st.type =
      (if st.disconnect_was_alive then 1 else 0) ∧
    crashCallbacks (OnChildDisconnected st .processWasKilled ec).1 = [] ∧
    notifications (OnChildDisconnected st .processWasKilled ec).1 =
      [.childProcessHostDisconnected] ∧
    (OnChildDisconnected st .processWasKilled ec).2 = none := by
  cases hfl : st.disconnect_was_alive <;>
    simp [OnChildDisconnected, terminalEffects, crashCallbacks, notifications,
      metricCount, hfl]

/-- Claim C10: on any status that is neither crashed, killed nor still-running
(the `default` case, i.e. normal termination), `OnChildDisconnected` emits the
generic `Disconnected` metric and the terminal disconnected notification and
deletes itself, with no delegate crash callback and no crash or kill counter. -/
theorem C10_default_branch (st : HostState) (ec : Int) :
    metricCount (OnChildDisconnected st .normalTermination ec).1 .Disconnected st.type = 1 ∧
    notifications (OnChildDisconnected st .normalTermination ec).1 =
      [.childProcessHostDisconnected] ∧
    crashCallbacks (OnChildDisconnected st .normalTermination ec).1 = [] ∧
    metricTotal (OnChildDisconnected st .normalTermination ec).1 .Crashed = 0 ∧
    metricTotal (OnChildDisconnected st .normalTermination ec).1 .CrashedWasAlive = 0 ∧
    metricTotal (OnChildDisconnected st .normalTermination ec).1 .Killed = 0 ∧
    metricTotal (OnChildDisconnected st .normalTermination ec).1 .KilledWasAlive = 0 ∧
    (OnChildDisconnected st .normalTermination ec).2 = none := by
  simp [OnChildDisconnected, terminalEffects, crashCallbacks, notifications,
    metricCount, metricTotal]

/-- Claim C8: `ForceShutdown` and `ShutdownStarted` make the host absent from
the registry enumeration immediately while the host object (and thus the OS
process it tracks) lives on; `ShutdownStarted` terminates nothing, while
`ForceShutdown` additionally instructs the channel to shut down. -/
theorem C8_shutdown_removal (reg : List Nat) (st : HostState) :
    st.id ∉ Enumerate (ForceShutdown reg st).1 ∧
    st.id ∉ Enumerate (ShutdownStarted reg st).1 ∧
    (ForceShutdown reg st).2.1 = [Effect.channelForceShutdown] ∧
    (ForceShutdown reg st).2.2 = st ∧
    (ShutdownStarted reg st).2.1 = [] ∧
    (ShutdownStarted reg st).2.2 = st := by
  refine ⟨?_, ?_, rfl, rfl, rfl, rfl⟩ <;>
    simp [ForceShutdown, ShutdownStarted, Enumerate, listRemove]

/-- Claim C6: if `OnProcessLaunched` sees an invalid (absent) launcher handle the
host deletes itself at once — no delegate callback fires, no state (hence no
stored handle) survives, and its registry entry is gone; with a valid handle the
registry is untouched, the handle is stored in the descriptor and the delegate's
launched callback fires exactly once. -/
theorem C6_process_launched (reg : List Nat) (st : HostState) :
    ((stepReg reg st (.processLaunched 0)).2.2 = none ∧
     (stepReg reg st (.processLaunched 0)).2.1 = [] ∧
     st.id ∉ Enumerate (stepReg reg st (.processLaunched 0)).1) ∧
    (∀ h : Nat, h ≠ 0 →
      (stepReg reg st (.processLaunched h)).1 = reg ∧
      (stepReg reg st (.processLaunched h)).2.1 = [Effect.delegateOnProcessLaunched] ∧
      (stepReg reg st (.processLaunched h)).2.2 = some { st with handle := h }) := by
  constructor
  · refine ⟨rfl, rfl, ?_⟩
    simp [stepReg, step, OnProcessLaunched, Enumerate, listRemove]
  · intro h hne
    simp [stepReg, step, OnProcessLaunched, hne]

/-- Claim C6 witness: both launch outcomes evaluated at a concrete host. -/
theorem C6_process_launched_witness :
    ((stepReg [1, 2] (initialState 1 4) (.processLaunched 0)).2.2 = none ∧
     (stepReg [1, 2] (initialState 1 4) (.processLaunched 0)).2.1 = [] ∧
     (initialState 1 4).id ∉ Enumerate (stepReg [1, 2] (initialState 1 4) (.processLaunched 0)).1) ∧
    ((stepReg [1, 2] (initialState 1 4) (.processLaunched 5)).1 = [1, 2] ∧
     (stepReg [1, 2] (initialState 1 4) (.processLaunched 5)).2.1 =
       [Effect.delegateOnProcessLaunched] ∧
     (stepReg [1, 2] (initialState 1 4) (.processLaunched 5)).2.2 =
       some { initialState 1 4 with handle := 5 }) :=
  ⟨(C6_process_launched [1, 2] (initialState 1 4)).1,
   (C6_process_launched [1, 2] (initialState 1 4)).2 5 (by decide)⟩

/-- Claim C9 counterexample: nothing guards handle assignment — `SetHandle`
overwrites an already-set handle with a different value, so "once set, no
operation ever overwrites it" fails on the concrete lifetime that calls
`SetHandle 5` and then `SetHandle 6`. -/
theorem C9_counterexample :
    (lifeRun (initialState 1 2) [Event.setHandle 5]).2 =
      some { initialState 1 2 with handle := 5 } ∧
    (lifeRun (initialState 1 2) [Event.setHandle 5, Event.setHandle 6]).2 =
      some { initialState 1 2 with handle := 6 } ∧
    (5 : Nat) ≠ 6 :=
  ⟨rfl, rfl, by decide⟩

/-- Claim C9 (amended): the handle is written only by `SetHandle` and by a
successful `OnProcessLaunched`, each of which stores the value it is given
unconditionally; every other operation leaves the handle unchanged. The code
itself does not prevent a second write from overwriting the handle. -/
theorem C9_handle_updates (st : HostState) (e : Event) (st2 : HostState)
    (h : (step st e).2 = some st2) :
    st2.handle = st.handle ∨
    (∃ hd, (e = .setHandle hd ∨ e = .processLaunched hd) ∧ st2.handle = hd) := by
  cases e with
  | childDisconnected status ec =>
      cases status <;> cases hfl : st.disconnect_was_alive <;>
        simp [step, OnChildDisconnected, hfl] at h <;>
        simp [← h]
  | waitableEventSignaled ec status sec =>
      by_cases hec : ec = STILL_ACTIVE
      · simp [step, OnWaitableEventSignaled, hec] at h
      · cases status <;> cases hfl : st.disconnect_was_alive <;>
          simp [step, OnWaitableEventSignaled, OnChildDisconnected, hec, hfl] at h <;>
          simp [← h]
  | channelConnected peer =>
      simp [step, OnChannelConnected] at h
      simp [← h]
  | channelError =>
      simp [step, OnChannelError] at h
      simp [← h]
  | setName n =>
      simp [step] at h
      simp [← h, SetName]
  | setHandle hd =>
      simp [step] at h
      exact Or.inr ⟨hd, Or.inl rfl, by simp [← h, SetHandle]⟩
  | processLaunched hd =>
      by_cases hz : hd = 0
      · simp [step, OnProcessLaunched, hz] at h
      · simp [step, OnProcessLaunched, hz] at h
        exact Or.inr ⟨hd, Or.inr rfl, by simp [← h]⟩
  | destroy =>
      simp [step] at h

/-- Claim C9 witness: the update characterization applied to a concrete
`SetHandle` step. -/
theorem C9_handle_updates_witness :
    (SetHandle (initialState 1 2) 5).handle = (initialState 1 2).handle ∨
    (∃ hd, ((Event.setHandle 5 : Event) = .setHandle hd ∨
        (Event.setHandle 5 : Event) = .processLaunched hd) ∧
      (SetHandle (initialState 1 2) 5).handle = hd) :=
  C9_handle_updates (initialState 1 2) (.setHandle 5) (SetHandle (initialState 1 2) 5) rfl

/-- `schedCount` distributes over effect-list concatenation. -/
theorem schedCount_append (l1 l2 : List Effect) :
    schedCount (l1 ++ l2) = schedCount l1 + schedCount l2 := by
  simp [schedCount, List.filter_append]

/-- `notifications` distributes over effect-list concatenation. -/
theorem notifications_append (l1 l2 : List Effect) :
    notifications (l1 ++ l2) = notifications l1 ++ notifications l2 := by
  simp [notifications]

/-- `discCount` distributes over effect-list concatenation. -/
theorem discCount_append (l1 l2 : List Effect) :
    discCount (l1 ++ l2) = discCount l1 + discCount l2 := by
  simp [discCount, notifications_append, List.filter_append]

/-- When a step leaves the host alive, `disconnect_was_alive` equals its old
value or-ed with whether the event delivered a still-running observation. -/
theorem disconnect_flag_step (st : HostState) (e : Event) (st2 : HostState)
    (h : (step st e).2 = some st2) :
    st2.disconnect_was_alive = (st.disconnect_was_alive || observesStillRunning e) := by
  cases e with
  | childDisconnected status ec =>
      cases status <;> cases hfl : st.disconnect_was_alive <;>
        simp [step, OnChildDisconnected, observesStillRunning, hfl] at h ⊢ <;>
        simp [← h]
  | waitableEventSignaled ec status sec =>
      by_cases hec : ec = STILL_ACTIVE
      · simp [step, OnWaitableEventSignaled, hec] at h
      · cases status <;> cases hfl : st.disconnect_was_alive <;>
          simp [step, OnWaitableEventSignaled, OnChildDisconnected,
            observesStillRunning, hec, hfl] at h ⊢ <;>
          simp [← h]
  | channelConnected peer =>
      simp [step, OnChannelConnected] at h
      simp [← h, observesStillRunning]
  | channelError =>
      simp [step, OnChannelError] at h
      simp [← h, observesStillRunning]
  | setName n =>
      simp [step] at h
      simp [← h, SetName, observesStillRunning]
  | setHandle hd =>
      simp [step] at h
      simp [← h, SetHandle, observesStillRunning]
  | processLaunched hd =>
      by_cases hz : hd = 0
      · simp [step, OnProcessLaunched, hz] at h
      · simp [step, OnProcessLaunched, hz] at h
        simp [← h, observesStillRunning]
  | destroy =>
      simp [step] at h

/-- Once `disconnect_was_alive` is set, it stays set along any lifetime. -/
theorem disconnect_flag_lifeRun_mono (events : List Event) (st st2 : HostState)
    (hst : st.disconnect_was_alive = true) (h : (lifeRun st events).2 = some st2) :
    st2.disconnect_was_alive = true := by
  induction events generalizing st with
  | nil =>
      simp [lifeRun] at h
      simp [← h, hst]
  | cons e es ih =>
      cases hstep : step st e with
      | mk effs r =>
          cases r with
          | none => simp [lifeRun, hstep] at h
          | some st1 =>
              have hflag := disconnect_flag_step st e st1 (by rw [hstep])
              have h1 : st1.disconnect_was_alive = true := by simp [hflag, hst]
              exact ih st1 h1 (by simpa [lifeRun, hstep] using h)

/-- Claim C5: `disconnect_was_alive` is false at construction; a surviving step
sets it to true exactly when a still-running observation arrives (so it
transitions false→true at most once); and once true it remains true for the
remaining lifetime — no operation ever resets it. -/
theorem C5_flag_monotone :
    (∀ id ty, (initialState id ty).disconnect_was_alive = false) ∧
    (∀ st e st2, (step st e).2 = some st2 →
      st2.disconnect_was_alive = (st.disconnect_was_alive || observesStillRunning e)) ∧
    (∀ events st st2, st.disconnect_was_alive = true →
      (lifeRun st events).2 = some st2 → st2.disconnect_was_alive = true) :=
  ⟨fun _ _ => rfl, disconnect_flag_step,
   fun events st st2 hst h => disconnect_flag_lifeRun_mono events st st2 hst h⟩

/-- Claim C5 witness: the flag facts applied at a concrete host and step. -/
theorem C5_flag_monotone_witness :
    (initialState 1 2).disconnect_was_alive = false ∧
    ({ initialState 1 2 with disconnect_was_alive := true } : HostState).disconnect_was_alive =
      ((initialState 1 2).disconnect_was_alive ||
        observesStillRunning (.childDisconnected .stillRunning 0)) ∧
    ({ initialState 1 2 with disconnect_was_alive := true } : HostState).disconnect_was_alive
      = true :=
  ⟨C5_flag_monotone.1 1 2,
   C5_flag_monotone.2.1 (initialState 1 2) (.childDisconnected .stillRunning 0)
     { initialState 1 2 with disconnect_was_alive := true } rfl,
   C5_flag_monotone.2.2 [] { initialState 1 2 with disconnect_was_alive := true }
     { initialState 1 2 with disconnect_was_alive := true } rfl rfl⟩

/-- A step schedules a re-check exactly when a still-running observation finds
`disconnect_was_alive` still clear. -/
theorem sched_step (st : HostState) (e : Event) :
    schedCount (step st e).1 =
      (if !st.disconnect_was_alive && observesStillRunning e then 1 else 0) := by
  cases e with
  | childDisconnected status ec =>
      cases status <;> cases hfl : st.disconnect_was_alive <;>
        simp [step, OnChildDisconnected, observesStillRunning, terminalEffects,
          schedCount, hfl]
  | waitableEventSignaled ec status sec =>
      by_cases hec : ec = STILL_ACTIVE
      · cases status <;>
          simp [step, OnWaitableEventSignaled, observesStillRunning, schedCount, hec]
      · cases status <;> cases hfl : st.disconnect_was_alive <;>
          simp [step, OnWaitableEventSignaled, OnChildDisconnected,
            observesStillRunning, terminalEffects, schedCount, hec, hfl]
  | channelConnected peer =>
      simp [step, OnChannelConnected, observesStillRunning, schedCount]
  | channelError =>
      simp [step, OnChannelError, observesStillRunning, schedCount]
  | setName n =>
      simp [step, observesStillRunning, schedCount]
  | setHandle hd =>
      simp [step, observesStillRunning, schedCount]
  | processLaunched hd =>
      by_cases hz : hd = 0 <;>
        simp [step, OnProcessLaunched, observesStillRunning, schedCount, hz]
  | destroy =>
      simp [step, observesStillRunning, schedCount]

/-- Along a lifetime that starts with the flag already set, no re-check is
ever scheduled. -/
theorem sched_lifeRun_alive (events : List Event) (st : HostState)
    (hst : st.disconnect_was_alive = true) :
    schedCount (lifeRun st events).1 = 0 := by
  induction events generalizing st with
  | nil => simp [lifeRun, schedCount]
  | cons e es ih =>
      cases hstep : step st e with
      | mk effs r =>
          have heffs : schedCount effs = 0 := by
            have hs := sched_step st e
            rw [hstep] at hs
            simpa [hst] using hs
          cases r with
          | none => simpa [lifeRun, hstep] using heffs
          | some st1 =>
              have h1 : st1.disconnect_was_alive = true := by
                have := disconnect_flag_step st e st1 (by rw [hstep])
                simp [this, hst]
              simp [lifeRun, hstep, schedCount_append, heffs, ih st1 h1]

/-- Along any lifetime, at most one bounded re-check is ever scheduled. -/
theorem sched_lifeRun_le_one (events : List Event) (st : HostState) :
    schedCount (lifeRun st events).1 ≤ 1 := by
  induction events generalizing st with
  | nil => simp [lifeRun, schedCount]
  | cons e es ih =>
      cases hstep : step st e with
      | mk effs r =>
          have hs := sched_step st e
          rw [hstep] at hs
          have heffs : schedCount effs ≤ 1 := by
            rw [hs]; split <;> simp
          cases r with
          | none => simpa [lifeRun, hstep] using heffs
          | some st1 =>
              by_cases hobs : (!st.disconnect_was_alive && observesStillRunning e) = true
              · have h1 : st1.disconnect_was_alive = true := by
                  have hflag := disconnect_flag_step st e st1 (by rw [hstep])
                  rw [hflag]
                  revert hobs
                  cases st.disconnect_was_alive <;> cases observesStillRunning e <;> simp
                have hrest := sched_lifeRun_alive es st1 h1
                simp [lifeRun, hstep, schedCount_append, hrest, hs, hobs]
              · have h0 : schedCount effs = 0 := by simp [hs, hobs]
                simpa [lifeRun, hstep, schedCount_append, h0] using ih st1

/-- Claim C2: a still-running observation with the flag clear sets the flag,
schedules exactly one bounded re-check and returns without emitting any
notification; with the flag already set, `OnChildDisconnected` gives up waiting
and falls through to the terminal disconnected notification and
self-destruction; and over any lifetime at most one re-check is ever scheduled. -/
theorem C2_still_running (st : HostState) (ec : Int) :
    (st.disconnect_was_alive = false →
      schedCount (OnChildDisconnected st .stillRunning ec).1 = 1 ∧
      notifications (OnChildDisconnected st .stillRunning ec).1 = [] ∧
      (OnChildDisconnected st .stillRunning ec).2 =
        some { st with disconnect_was_alive := true }) ∧
    (st.disconnect_was_alive = true →
      schedCount (OnChildDisconnected st .stillRunning ec).1 = 0 ∧
      notifications (OnChildDisconnected st .stillRunning ec).1 =
        [.childProcessHostDisconnected] ∧
      (OnChildDisconnected st .stillRunning ec).2 = none) ∧
    (∀ events st0, schedCount (lifeRun st0 events).1 ≤ 1) := by
  refine ⟨?_, ?_, fun events st0 => sched_lifeRun_le_one events st0⟩ <;>
    intro hfl <;>
    simp [OnChildDisconnected, schedCount, notifications, terminalEffects, hfl]

/-- Claim C2 witness: both still-running outcomes and the lifetime bound
evaluated at concrete inputs. -/
theorem C2_still_running_witness :
    (schedCount (OnChildDisconnected (initialState 1 2) .stillRunning 0).1 = 1 ∧
     notifications (OnChildDisconnected (initialState 1 2) .stillRunning 0).1 = [] ∧
     (OnChildDisconnected (initialState 1 2) .stillRunning 0).2 =
       some { initialState 1 2 with disconnect_was_alive := true }) ∧
    (schedCount (OnChildDisconnected
        { initialState 1 2 with disconnect_was_alive := true } .stillRunning 0).1 = 0 ∧
     notifications (OnChildDisconnected
        { initialState 1 2 with disconnect_was_alive := true } .stillRunning 0).1 =
       [.childProcessHostDisconnected] ∧
     (OnChildDisconnected
        { initialState 1 2 with disconnect_was_alive := true } .stillRunning 0).2 = none) ∧
    schedCount (lifeRun (initialState 1 2)
      [.childDisconnected .stillRunning 0, .childDisconnected .stillRunning 0]).1 ≤ 1 :=
  ⟨(C2_still_running (initialState 1 2) 0).1 rfl,
   (C2_still_running { initialState 1 2 with disconnect_was_alive := true } 0).2.1 rfl,
   (C2_still_running (initialState 1 2) 0).2.2
     [.childDisconnected .stillRunning 0, .childDisconnected .stillRunning 0]
     (initialState 1 2)⟩

/-- The snapshot loop of `TerminateAll` destroys exactly the snapshot, in order. -/
theorem terminateAllLoop_destroyed (snap : List Nat) :
    ∀ live, (terminateAllLoop live snap).2 = snap := by
  induction snap with
  | nil => intro live; rfl
  | cons x xs ih => intro live; simp [terminateAllLoop, ih]

/-- If every live entry appears in the snapshot, the snapshot loop leaves the
live list empty: each destructor removes its own entry from the live list. -/
theorem terminateAllLoop_live_nil (snap : List Nat) :
    ∀ live, (∀ a, a ∈ live → a ∈ snap) → (terminateAllLoop live snap).1 = [] := by
  induction snap with
  | nil =>
      intro live h
      have hl : live = [] :=
        List.eq_nil_iff_forall_not_mem.mpr fun a ha => by simpa using h a ha
      simp [terminateAllLoop, hl]
  | cons x xs ih =>
      intro live h
      have hsub : ∀ a, a ∈ listRemove live x → a ∈ xs := by
        intro a ha
        have hmem : a ∈ live ∧ a ≠ x := by
          simpa [listRemove] using ha
        rcases List.mem_cons.mp (h a hmem.1) with hax | haxs
        · exact absurd hax hmem.2
        · exact haxs
      simpa [terminateAllLoop] using ih (listRemove live x) hsub

/-- Claim C7: `TerminateAll` snapshots the registry and iterates the copy, so
every Supervisor present at call time is destroyed exactly once and in order
(nothing skipped, nothing processed twice) even though each destructor removes
itself from the live list mid-iteration; afterwards the live list is empty. -/
theorem C7_terminate_all (reg : List Nat) (hnd : reg.Nodup) :
    (TerminateAll reg).1 = [] ∧
    (TerminateAll reg).2 = reg ∧
    (∀ id, id ∈ reg → List.count id (TerminateAll reg).2 = 1) := by
  refine ⟨terminateAllLoop_live_nil reg reg (fun a ha => ha),
    terminateAllLoop_destroyed reg reg, ?_⟩
  intro id hid
  have hdes : (TerminateAll reg).2 = reg := terminateAllLoop_destroyed reg reg
  rw [hdes]
  exact List.count_eq_one_of_mem hnd hid

/-- Claim C7 witness: a three-element registry is snapshotted and fully
destroyed, each entry exactly once. -/
theorem C7_terminate_all_witness :
    (TerminateAll [1, 2, 3]).1 = [] ∧
    (TerminateAll [1, 2, 3]).2 = [1, 2, 3] ∧
    List.count 2 (TerminateAll [1, 2, 3]).2 = 1 :=
  ⟨(C7_terminate_all [1, 2, 3] (by decide)).1,
   (C7_terminate_all [1, 2, 3] (by decide)).2.1,
   (C7_terminate_all [1, 2, 3] (by decide)).2.2 2 (by decide)⟩

/-- Per-step shape of disconnected notifications: at most one; when one is
emitted the host deletes itself and it is the last notification of the step;
and deletion through `OnChildDisconnected` always emits exactly one. -/
theorem disc_step (st : HostState) (e : Event) :
    discCount (step st e).1 ≤ 1 ∧
    (discCount (step st e).1 = 1 →
      (step st e).2 = none ∧
      (notifications (step st e).1).getLast? = some .childProcessHostDisconnected) ∧
    ((∃ status ec, e = .childDisconnected status ec) → (step st e).2 = none →
      discCount (step st e).1 = 1) := by
  cases e with
  | childDisconnected status ec =>
      cases status <;> cases hfl : st.disconnect_was_alive <;>
        simp [step, OnChildDisconnected, terminalEffects, notifications, discCount, hfl]
  | waitableEventSignaled ec status sec =>
      by_cases hec : ec = STILL_ACTIVE
      · simp [step, OnWaitableEventSignaled, notifications, discCount, hec]
      · cases status <;> cases hfl : st.disconnect_was_alive <;>
          simp [step, OnWaitableEventSignaled, OnChildDisconnected, terminalEffects,
            notifications, discCount, hec, hfl]
  | channelConnected peer =>
      simp [step, OnChannelConnected, notifications, discCount]
  | channelError =>
      simp [step, OnChannelError, notifications, discCount]
  | setName n =>
      simp [step, notifications, discCount]
  | setHandle hd =>
      simp [step, notifications, discCount]
  | processLaunched hd =>
      by_cases hz : hd = 0 <;>
        simp [step, OnProcessLaunched, notifications, discCount, hz]
  | destroy =>
      simp [step, notifications, discCount]

/-- An effect list carrying a disconnected notification has notifications. -/
theorem notifications_ne_nil_of_discCount (l : List Effect) (h : discCount l = 1) :
    notifications l ≠ [] := by
  intro hnil
  rw [discCount, hnil] at h
  simp at h

/-- Run-level shape of disconnected notifications: any lifetime emits at most
one, and emitting one coincides with self-destruction and is the last
notification of the lifetime. -/
theorem disc_lifeRun (events : List Event) (st : HostState) :
    discCount (lifeRun st events).1 ≤ 1 ∧
    (discCount (lifeRun st events).1 = 1 →
      (lifeRun st events).2 = none ∧
      (notifications (lifeRun st events).1).getLast? =
        some .childProcessHostDisconnected) := by
  induction events generalizing st with
  | nil => simp [lifeRun, discCount, notifications]
  | cons e es ih =>
      cases hstep : step st e with
      | mk effs r =>
          have hstp := disc_step st e
          rw [hstep] at hstp
          cases r with
          | none =>
              refine ⟨by simpa [lifeRun, hstep] using hstp.1, ?_⟩
              intro h1
              have hres := hstp.2.1 (by simpa [lifeRun, hstep] using h1)
              exact ⟨by simp [lifeRun, hstep], by simpa [lifeRun, hstep] using hres.2⟩
          | some st1 =>
              have h0 : discCount effs = 0 := by
                by_contra hne
                have h1 : discCount effs = 1 :=
                  Nat.le_antisymm hstp.1 (Nat.one_le_iff_ne_zero.mpr hne)
                have hcontra := (hstp.2.1 h1).1
                simp at hcontra
              have hrun : lifeRun st (e :: es) =
                  (effs ++ (lifeRun st1 es).1, (lifeRun st1 es).2) := by
                simp [lifeRun, hstep]
              constructor
              · rw [hrun]
                simpa [discCount_append, h0] using (ih st1).1
              · intro h1
                rw [hrun] at h1 ⊢
                rw [discCount_append, h0] at h1
                simp at h1
                have hih := (ih st1).2 h1
                refine ⟨by simpa using hih.1, ?_⟩
                have hne := notifications_ne_nil_of_discCount _ h1
                rw [notifications_append, List.getLast?_append_of_ne_nil _ hne]
                exact hih.2

/-- Claim C1 (amended): over any complete lifetime the Supervisor emits at most
one terminal disconnected notification; whenever one is emitted the Supervisor
self-destroys at that point and it is the last notification of the lifetime;
and destruction through `OnChildDisconnected`'s terminal step always emits
exactly one. (A Supervisor destroyed directly, or through the waitable-event
path with a `STILL_ACTIVE` exit code, emits none — see the counterexample.) -/
theorem C1_terminal_notification (st : HostState) (events : List Event) :
    discCount (lifeRun st events).1 ≤ 1 ∧
    (discCount (lifeRun st events).1 = 1 →
      (lifeRun st events).2 = none ∧
      (notifications (lifeRun st events).1).getLast? =
        some .childProcessHostDisconnected) ∧
    (∀ st0 status ec, (OnChildDisconnected st0 status ec).2 = none →
      discCount (OnChildDisconnected st0 status ec).1 = 1) :=
  ⟨(disc_lifeRun events st).1, (disc_lifeRun events st).2,
   fun st0 status ec h =>
     (disc_step st0 (.childDisconnected status ec)).2.2 ⟨status, ec, rfl⟩ h⟩

/-- Claim C1 witness: a concrete crashed lifetime emits exactly one terminal
disconnected notification, last, and then the Supervisor is gone. -/
theorem C1_terminal_notification_witness :
    discCount (lifeRun (initialState 1 2) [.childDisconnected .processCrashed 9]).1 ≤ 1 ∧
    ((lifeRun (initialState 1 2) [.childDisconnected .processCrashed 9]).2 = none ∧
     (notifications (lifeRun (initialState 1 2) [.childDisconnected .processCrashed 9]).1).getLast?
       = some .childProcessHostDisconnected) ∧
    discCount (OnChildDisconnected (initialState 1 2) .processWasKilled 0).1 = 1 :=
  ⟨(C1_terminal_notification (initialState 1 2) [.childDisconnected .processCrashed 9]).1,
   (C1_terminal_notification (initialState 1 2) [.childDisconnected .processCrashed 9]).2.1 rfl,
   (C1_terminal_notification (initialState 1 2) [.childDisconnected .processCrashed 9]).2.2
     (initialState 1 2) .processWasKilled 0 rfl⟩

/-- Claim C1 counterexample: the waitable-event path with a `STILL_ACTIVE` exit
code destroys the Supervisor without emitting any notification, so a complete
lifetime can end with zero — not exactly one — terminal disconnected
notifications. -/
theorem C1_counterexample :
    (lifeRun (initialState 7 3) [Event.waitableEventSignaled 259 .stillRunning 0]).2 = none ∧
    discCount (lifeRun (initialState 7 3)
      [Event.waitableEventSignaled 259 .stillRunning 0]).1 = 0 :=
  ⟨rfl, rfl⟩
